import Mathlib

/-
  Verification of the newsfax fact-checking job pipeline (src/api/api.py and
  src/api/fact_checker.py) against its natural-language specification.

  The sqlite table fact_checks (url TEXT PRIMARY KEY, checked_fact_json TEXT,
  processed INTEGER NOT NULL DEFAULT 0) is modelled as a list of rows with the
  key-lookup, INSERT OR REPLACE and UPDATE semantics made explicit.  The JSON
  text stored in checked_fact_json is modelled at the level of JSON trees: the
  composition json.loads after json.dumps is the identity on the tree, so
  serialisation is a function into trees and the endpoint returns the tree.
  The async stages are modelled as explicit Except-valued oracles; the
  background dispatch of process_fact_checking is recorded as the list of
  scheduled task keys.  Python string operations (strip, split, startswith,
  replace, urllib.parse.urlparse) are modelled character by character on the
  underlying character lists, restricted to the ASCII behaviour the data
  exercises.
-/

namespace Newsfax

/-- JSON values, as far as the serialised fact payloads need them
(json.dumps in save_fact_check_results produces only strings, arrays and
objects). -/
inductive Json where
| str : String → Json
| arr : List Json → Json
| obj : List (String × Json) → Json

/-- Source dataclass of api.py: a source URL and its favicon URL. -/
structure Source where
  url : String
  favicon : String
deriving DecidableEq, Repr

/-- CheckedFact dataclass of api.py. -/
structure CheckedFact where
  text : String
  truthfulness : String
  summary : String
  sources : List Source
deriving DecidableEq, Repr

/-- FactCheckResult dataclass of fact_checker.py; its sources are
url/favicon dictionaries, carried here as Source values. -/
structure FactCheckResult where
  text : String
  truthfulness : String
  summary : String
  sources : List Source
deriving DecidableEq, Repr

/-- The JSON object built for one source by save_fact_check_results. -/
def sourceToJson (s : Source) : Json :=
  Json.obj [("url", Json.str s.url), ("favicon", Json.str s.favicon)]

/-- The JSON object built for one fact by save_fact_check_results. -/
def factToJson (f : CheckedFact) : Json :=
  Json.obj [("text", Json.str f.text),
            ("truthfulness", Json.str f.truthfulness),
            ("summary", Json.str f.summary),
            ("sources", Json.arr (f.sources.map sourceToJson))]

/-- The JSON array json.dumps serialises in save_fact_check_results. -/
def factsToJson (facts : List CheckedFact) : Json :=
  Json.arr (facts.map factToJson)

/-- Reading one source back out of its JSON object. -/
def sourceOfJson : Json → Option Source
| Json.obj [("url", Json.str u), ("favicon", Json.str f)] => some ⟨u, f⟩
| _ => none

/-- Reading a list of sources back. -/
def sourcesOfJson : List Json → Option (List Source)
| [] => some []
| j :: rest =>
  match sourceOfJson j, sourcesOfJson rest with
  | some s, some ss => some (s :: ss)
  | _, _ => none

/-- Reading one fact back out of its JSON object. -/
def factOfJson : Json → Option CheckedFact
| Json.obj [("text", Json.str t), ("truthfulness", Json.str tr),
            ("summary", Json.str sm), ("sources", Json.arr l)] =>
  match sourcesOfJson l with
  | some ss => some ⟨t, tr, sm, ss⟩
  | none => none
| _ => none

/-- Reading a list of facts back. -/
def factListOfJson : List Json → Option (List CheckedFact)
| [] => some []
| j :: rest =>
  match factOfJson j, factListOfJson rest with
  | some f, some fs => some (f :: fs)
  | _, _ => none

/-- Reading the whole serialised payload back. -/
def factsOfJson : Json → Option (List CheckedFact)
| Json.arr l => factListOfJson l
| _ => none

/-- One row of the fact_checks table: url TEXT PRIMARY KEY,
checked_fact_json TEXT (nullable), processed INTEGER NOT NULL DEFAULT 0
(written and read as a boolean by api.py). -/
structure Row where
  url : String
  checked_fact_json : Option Json
  processed : Bool

/-- The fact_checks table.  The url column is the primary key, so at most
one row per url is ever live; lookup returns the first match. -/
def Store := List Row

/-- SELECT checked_fact_json, processed FROM fact_checks WHERE url = ?,
fetchone: the row for the key, if any. -/
def lookupRow : Store → String → Option Row
| [], _ => none
| r :: rest, url => if r.url = url then some r else lookupRow rest url

/-- Removal of the row with the given primary key (the REPLACE half of
INSERT OR REPLACE). -/
def delete_row : Store → String → Store
| [], _ => []
| r :: rest, url =>
  if r.url = url then delete_row rest url else r :: delete_row rest url

/-- get_fact_check_status of api.py: (None, False) when no row exists,
else the row's payload and processed flag. -/
def get_fact_check_status (db : Store) (url : String) : Option Json × Bool :=
  match lookupRow db url with
  | none => (none, false)
  | some r => (r.checked_fact_json, r.processed)

/-- set_processing_status of api.py: INSERT OR REPLACE INTO fact_checks
(url, checked_fact_json, processed) VALUES (?, NULL, ?). -/
def set_processing_status (db : Store) (url : String) (processing : Bool) :
    Store :=
  ⟨url, none, processing⟩ :: delete_row db url

/-- save_fact_check_results of api.py: UPDATE fact_checks SET
checked_fact_json = ?, processed = TRUE WHERE url = ?.  An UPDATE whose
WHERE clause matches no row changes nothing and raises nothing. -/
def save_fact_check_results (db : Store) (url : String)
    (facts : List CheckedFact) : Store :=
  db.map (fun r =>
    if r.url = url then ⟨r.url, some (factsToJson facts), true⟩ else r)

/-- process_fact_checking of api.py, with the two pipeline stages as
explicit fallible collaborators: try extract, analyze, save; on any
exception save the empty list so the key is marked processed. -/
def process_fact_checking (db : Store) (url : String)
    (fetch : String → Except String String)
    (analyze : String → Except String (List CheckedFact)) : Store :=
  match fetch url with
  | Except.error _ => save_fact_check_results db url []
  | Except.ok content =>
    match analyze content with
    | Except.error _ => save_fact_check_results db url []
    | Except.ok facts => save_fact_check_results db url facts

/-- An HTTP response of the factcheck endpoint: status code and JSON body. -/
structure Response where
  status_code : Nat
  body : Json

/-- JSON body of the 202 in-progress response. -/
def in_progress_body : Json :=
  Json.obj [("message", Json.str "Fact checking in progress")]

/-- JSON body of the 202 started response. -/
def started_body : Json :=
  Json.obj [("message", Json.str "Fact checking started")]

/-- Outcome of one call of the factcheck endpoint: the response, the store
afterwards, and the keys handed to background_tasks.add_task. -/
structure SubmitOutcome where
  response : Response
  store : Store
  tasks : List String

/-- The factcheck endpoint of api.py: read the status; a non-null payload
is returned as 200 with the parsed facts; else a set processed flag means
202 in progress; else mark the key processing, schedule
process_fact_checking for it and answer 202 started. -/
def factcheck (db : Store) (url : String) : SubmitOutcome :=
  match get_fact_check_status db url with
  | (some j, _) => ⟨⟨200, j⟩, db, []⟩
  | (none, true) => ⟨⟨202, in_progress_body⟩, db, []⟩
  | (none, false) =>
    ⟨⟨202, started_body⟩, set_processing_status db url true, [url]⟩

/-- A run of submit calls, threading the store. -/
def submitMany (db : Store) (urls : List String) : Store :=
  urls.foldl (fun d u => (factcheck d u).store) db

/-- Modelled from the spec: the Store.saveResult contract of spec section
4.1, which demands an InternalConsistencyFault when saveResult is called
for a key with no record.  The code (save_fact_check_results) has no such
check; this definition exists only to state the divergence. -/
inductive StoreFault where
| internalConsistencyFault
deriving DecidableEq, Repr

/-- Modelled from the spec: saveResult as section 4.1 words it, signalling
an internal-consistency fault on a key with no record, for comparison with
save_fact_check_results. -/
def saveResult_contract (db : Store) (url : String) (L : List CheckedFact) :
    Except StoreFault Store :=
  match lookupRow db url with
  | none => Except.error StoreFault.internalConsistencyFault
  | some _ => Except.ok (save_fact_check_results db url L)

/-- ASCII whitespace stripped by str.strip() (the data here is ASCII). -/
def py_is_space (c : Char) : Bool :=
  c == ' ' || c == '\t' || c == '\n' || c == '\r' || c == '\x0b' || c == '\x0c'

/-- str.strip() on the character list: drop whitespace at both ends. -/
def list_strip (cs : List Char) : List Char :=
  ((cs.dropWhile py_is_space).reverse.dropWhile py_is_space).reverse

/-- str.startswith on character lists. -/
def starts_with_chars : List Char → List Char → Bool
| _, [] => true
| [], _ :: _ => false
| c :: cs, p :: ps => c == p && starts_with_chars cs ps

/-- str.replace of the two-character escape backslash-quote by a quote,
left to right, as in add_fact's clean-up. -/
def remove_escaped_quotes : List Char → List Char
| '\\' :: '\"' :: rest => '\"' :: remove_escaped_quotes rest
| c :: rest => c :: remove_escaped_quotes rest
| [] => []

/-- The clean-up of fact_text at the head of add_fact: strip, drop one
matching pair of outer double quotes, unescape quotes, strip again. -/
def clean_fact_text_of (fact_text : String) : String :=
  let s1 := list_strip fact_text.toList
  let s2 :=
    if starts_with_chars s1 ['\"'] && starts_with_chars s1.reverse ['\"'] then
      (s1.drop 1).dropLast
    else s1
  ⟨list_strip (remove_escaped_quotes s2)⟩

/-- str.split on one separator character; Python split(",") keeps empty
pieces and maps the empty string to one empty piece. -/
def split_on_char (sep : Char) : List Char → List (List Char)
| [] => [[]]
| c :: rest =>
  let r := split_on_char sep rest
  if c == sep then [] :: r else (c :: r.headD []) :: r.tail

/-- The characters of "http". -/
def http_prefix : List Char := ['h', 't', 't', 'p']

/-- The source-parsing loop of add_fact: when the sources string and its
strip are truthy, split on commas, strip each piece and keep the pieces
that start with http, in order. -/
def parse_source_urls (sources : String) : List String :=
  if sources = "" ∨ list_strip sources.toList = [] then []
  else
    (((split_on_char ',' sources.toList).map list_strip).filter
        (fun u => starts_with_chars u http_prefix)).map
      (fun u => (⟨u⟩ : String))

/-- The characters urllib accepts inside a URL scheme. -/
def is_scheme_char (c : Char) : Bool :=
  c.isAlpha || c.isDigit || c == '+' || c == '-' || c == '.'

/-- Scan for the colon ending a scheme: succeeds with the remainder when
every character before the first colon is a scheme character. -/
def scheme_split : List Char → Option (List Char)
| [] => none
| c :: cs =>
  if c == ':' then some cs
  else if is_scheme_char c then scheme_split cs else none

/-- urllib.parse.urlsplit's scheme removal: a url whose first character is
a letter and whose characters up to a colon are scheme characters loses
that prefix; otherwise it is left whole. -/
def drop_scheme : List Char → List Char
| [] => []
| c :: rest =>
  if c == ':' then c :: rest
  else if c.isAlpha then
    match scheme_split rest with
    | some after => after
    | none => c :: rest
  else c :: rest

/-- A character ending the netloc portion of a URL. -/
def netloc_end (c : Char) : Bool := c == '/' || c == '?' || c == '#'

/-- The netloc: characters after the double slash up to a slash, question
mark or hash. -/
def netloc_of : List Char → List Char
| [] => []
| c :: cs => if netloc_end c then [] else c :: netloc_of cs

/-- urllib.parse.urlparse(url).netloc: after scheme removal, a remainder
starting with a double slash has its netloc read up to a delimiter; none
models the ValueError urlparse raises when the netloc has an unbalanced
square bracket (an invalid IPv6 literal); a url without the double slash
has an empty netloc. -/
def urlparse_netloc (url : String) : Option String :=
  if starts_with_chars (drop_scheme url.toList) ['/', '/'] then
    if ((netloc_of ((drop_scheme url.toList).drop 2)).contains '['
          ∧ ¬ (netloc_of ((drop_scheme url.toList).drop 2)).contains ']')
        ∨ ((netloc_of ((drop_scheme url.toList).drop 2)).contains ']'
          ∧ ¬ (netloc_of ((drop_scheme url.toList).drop 2)).contains '[') then
      none
    else some ⟨netloc_of ((drop_scheme url.toList).drop 2)⟩
  else some ""

/-- Body of the per-url loop in add_fact: favicon from the parsed host,
and the google favicon when urlparse raises. -/
def make_source_object (url : String) : Source :=
  match urlparse_netloc url with
  | some domain => ⟨url, "https://" ++ domain ++ "/favicon.ico"⟩
  | none => ⟨url, "https://www.google.com/favicon.ico"⟩

/-- str.replace(" ", "+") as used for the default search URL. -/
def py_replace_space (s : String) : String :=
  ⟨s.toList.map (fun c => if c = ' ' then '+' else c)⟩

/-- The default source URL add_fact builds when no source URL was kept. -/
def default_google_url (clean : String) : String :=
  "https://www.google.com/search?q=" ++ py_replace_space clean

/-- The closed verdict set of add_fact. -/
def valid_truthfulness : List String := ["TRUE", "FALSE", "SOMEWHAT TRUE"]

/-- The validation error message add_fact returns for a verdict outside
the closed set. -/
def invalid_truthfulness_msg (truthfulness : String) : String :=
  "Invalid truthfulness '" ++ truthfulness
    ++ "'. Must be one of: ['TRUE', 'FALSE', 'SOMEWHAT TRUE']"

/-- The source list add_fact attaches to a validated fact: the first three
parsed source URLs with their favicons, or the single default google
search source when none parsed. -/
def added_fact_sources (clean_fact_text : String) (sources : String) :
    List Source :=
  let source_objects :=
    ((parse_source_urls sources).take 3).map make_source_object
  if source_objects = [] then
    [⟨default_google_url clean_fact_text,
      "https://www.google.com/favicon.ico"⟩]
  else source_objects

/-- The FactCheckResult add_fact constructs for a validated verdict. -/
def added_fact (fact_text truthfulness summary sources : String) :
    FactCheckResult :=
  ⟨clean_fact_text_of fact_text, truthfulness, summary,
   added_fact_sources (clean_fact_text_of fact_text) sources⟩

/-- add_fact of fact_checker.py: clean the text, validate the verdict
against the closed set (returning the error message and leaving the
collection unchanged on failure), parse and cap the sources, substitute
the default google source when none parsed, and append the result. -/
def add_fact (collected_facts : List FactCheckResult)
    (fact_text truthfulness summary sources : String) :
    List FactCheckResult × String :=
  if truthfulness ∈ valid_truthfulness then
    (collected_facts ++ [added_fact fact_text truthfulness summary sources],
     "Successfully added fact #" ++ toString (collected_facts.length + 1)
        ++ " to collection")
  else
    (collected_facts, invalid_truthfulness_msg truthfulness)

/-- extract_content_from_url of api.py: when fact checking is enabled, try
the real extraction and fall back to the mock content string on error;
when disabled, return the mock content.  Total: every exception of the
collaborator is caught inside. -/
def extract_content_from_url (enabled : Bool)
    (extract_async : String → Except String String) (url : String) :
    String :=
  if enabled then
    match extract_async url with
    | Except.ok content => content
    | Except.error e =>
      "Mock content extracted from " ++ url ++ " (error: " ++ e ++ ")"
  else "Mock content extracted from " ++ url

/-- The conversion of FactCheckResult values to CheckedFact values in
api.py. -/
def convert_fact_results_to_checked_facts
    (fact_results : List FactCheckResult) : List CheckedFact :=
  fact_results.map
    (fun r => ⟨r.text, r.truthfulness, r.summary,
               r.sources.map (fun s => ⟨s.url, s.favicon⟩)⟩)

/-- The eight mock facts of api.py's get_mock_facts. -/
def get_mock_facts : List CheckedFact :=
  [⟨"climate change", "TRUE",
    "Climate change is a well-established scientific fact supported by overwhelming evidence from multiple independent research institutions worldwide.",
    [⟨"https://www.nasa.gov/climate", "https://www.nasa.gov/favicon.ico"⟩,
     ⟨"https://www.noaa.gov/climate", "https://www.noaa.gov/favicon.ico"⟩,
     ⟨"https://www.ipcc.ch/", "https://www.ipcc.ch/favicon.ico"⟩]⟩,
   ⟨"artificial intelligence", "SOMEWHAT TRUE",
    "While AI technology is rapidly advancing, claims about its capabilities are often exaggerated or lack proper context about current limitations.",
    [⟨"https://www.nature.com/", "https://www.nature.com/favicon.ico"⟩,
     ⟨"https://www.sciencemag.org/", "https://www.sciencemag.org/favicon.ico"⟩,
     ⟨"https://www.technologyreview.com/", "https://www.technologyreview.com/favicon.ico"⟩]⟩,
   ⟨"vaccines cause autism", "FALSE",
    "This claim has been thoroughly debunked by numerous large-scale studies. No credible scientific evidence supports any link between vaccines and autism.",
    [⟨"https://www.cdc.gov/", "https://www.cdc.gov/favicon.ico"⟩,
     ⟨"https://www.who.int/", "https://www.who.int/favicon.ico"⟩,
     ⟨"https://www.nejm.org/", "https://www.nejm.org/favicon.ico"⟩]⟩,
   ⟨"renewable energy", "TRUE",
    "Renewable energy technologies are proven, cost-effective, and increasingly competitive with fossil fuels according to industry data.",
    [⟨"https://www.iea.org/", "https://www.iea.org/favicon.ico"⟩,
     ⟨"https://www.irena.org/", "https://www.irena.org/favicon.ico"⟩,
     ⟨"https://www.energy.gov/", "https://www.energy.gov/favicon.ico"⟩]⟩,
   ⟨"unemployment rate", "SOMEWHAT TRUE",
    "Unemployment statistics are generally accurate but may not capture underemployment or discouraged workers, requiring careful interpretation.",
    [⟨"https://www.bls.gov/", "https://www.bls.gov/favicon.ico"⟩,
     ⟨"https://www.federalreserve.gov/", "https://www.federalreserve.gov/favicon.ico"⟩]⟩,
   ⟨"inflation", "SOMEWHAT TRUE",
    "Inflation data is generally reliable but interpretation depends on methodology and time frame. Different measures may show varying trends.",
    [⟨"https://www.federalreserve.gov/", "https://www.federalreserve.gov/favicon.ico"⟩,
     ⟨"https://www.bls.gov/", "https://www.bls.gov/favicon.ico"⟩]⟩,
   ⟨"social media", "SOMEWHAT TRUE",
    "Claims about social media impacts are often mixed - some effects are well-documented while others are still being researched.",
    [⟨"https://www.pewresearch.org/", "https://www.pewresearch.org/favicon.ico"⟩,
     ⟨"https://www.apa.org/", "https://www.apa.org/favicon.ico"⟩]⟩,
   ⟨"electric vehicles", "TRUE",
    "Electric vehicles are a proven technology with clear environmental benefits and rapidly improving performance metrics.",
    [⟨"https://www.epa.gov/", "https://www.epa.gov/favicon.ico"⟩,
     ⟨"https://www.energy.gov/", "https://www.energy.gov/favicon.ico"⟩,
     ⟨"https://www.iea.org/", "https://www.iea.org/favicon.ico"⟩]⟩]

/-- analyze_facts_with_ai of api.py: when enabled, try the real analysis,
convert its results, and substitute the first three mock facts when the
conversion is empty or the collaborator raised; when disabled, return all
mock facts.  Total: every exception of the collaborator is caught
inside. -/
def analyze_facts_with_ai (enabled : Bool)
    (analyze_async : String → Except String (List FactCheckResult))
    (content : String) : List CheckedFact :=
  if enabled then
    match analyze_async content with
    | Except.ok fact_results =>
      let checked_facts := convert_fact_results_to_checked_facts fact_results
      if checked_facts = [] then get_mock_facts.take 3 else checked_facts
    | Except.error _ => get_mock_facts.take 3
  else get_mock_facts

/-- A sample source for witnesses. -/
def exSource : Source :=
  ⟨"https://www.nasa.gov/climate", "https://www.nasa.gov/favicon.ico"⟩

/-- A sample fact for witnesses. -/
def exFact : CheckedFact := ⟨"climate change", "TRUE", "well established", [exSource]⟩

lemma sourcesOfJson_map (l : List Source) :
    sourcesOfJson (l.map sourceToJson) = some l := by
  induction l with
  | nil => rfl
  | cons s rest ih => simp [sourcesOfJson, sourceToJson, sourceOfJson, ih]

lemma factOfJson_factToJson (f : CheckedFact) :
    factOfJson (factToJson f) = some f := by
  simp [factToJson, factOfJson, sourcesOfJson_map]

lemma factListOfJson_map (L : List CheckedFact) :
    factListOfJson (L.map factToJson) = some L := by
  induction L with
  | nil => rfl
  | cons f rest ih => simp [factListOfJson, factOfJson_factToJson, ih]

/-- Decoding is a left inverse of the serialisation of
save_fact_check_results: the stored payload recovers the fact list with
order and content preserved. -/
lemma factsOfJson_factsToJson (L : List CheckedFact) :
    factsOfJson (factsToJson L) = some L := by
  simp [factsToJson, factsOfJson, factListOfJson_map]

lemma lookupRow_delete_ne (db : Store) (u url : String) (h : url ≠ u) :
    lookupRow (delete_row db u) url = lookupRow db url := by
  induction db with
  | nil => rfl
  | cons r rest ih =>
    simp only [delete_row]
    by_cases hr : r.url = u
    · have h1 : ¬ r.url = url := fun hu => h (hu.symm.trans hr)
      rw [if_pos hr, ih]
      simp [lookupRow, h1]
    · rw [if_neg hr]
      by_cases hu : r.url = url
      · simp [lookupRow, hu]
      · simp [lookupRow, hu, ih]

lemma delete_row_idem (db : Store) (url : String) :
    delete_row (delete_row db url) url = delete_row db url := by
  induction db with
  | nil => rfl
  | cons r rest ih =>
    by_cases hr : r.url = url
    · simp [delete_row, hr, ih]
    · simp [delete_row, hr, ih]

lemma lookupRow_set_processing (db : Store) (url : String) (b : Bool) :
    lookupRow (set_processing_status db url b) url = some ⟨url, none, b⟩ := by
  simp [set_processing_status, lookupRow]

lemma lookupRow_save (db : Store) (url : String) (L : List CheckedFact) :
    lookupRow (save_fact_check_results db url L) url
      = (lookupRow db url).map
          (fun r => ⟨r.url, some (factsToJson L), true⟩) := by
  induction db with
  | nil => rfl
  | cons r rest ih =>
    by_cases hr : r.url = url
    · simp [save_fact_check_results, lookupRow, hr]
    · simp [save_fact_check_results, lookupRow, hr] at ih ⊢
      exact ih

lemma save_absent (db : Store) (url : String) (L : List CheckedFact)
    (h : lookupRow db url = none) :
    save_fact_check_results db url L = db := by
  induction db with
  | nil => rfl
  | cons r rest ih =>
    by_cases hr : r.url = url
    · simp [lookupRow, hr] at h
    · simp only [lookupRow, if_neg hr] at h
      have h2 := ih h
      simp only [save_fact_check_results] at h2 ⊢
      simp [List.map_cons, if_neg hr, h2]

lemma factcheck_store_cases (db : Store) (u : String) :
    (factcheck db u).store = db
      ∨ (factcheck db u).store = set_processing_status db u true := by
  cases hpb : get_fact_check_status db u with
  | mk p b =>
    cases p with
    | some j => left; simp [factcheck, hpb]
    | none =>
      cases b with
      | true => left; simp [factcheck, hpb]
      | false => right; simp [factcheck, hpb]

lemma factcheck_store_preserves_done (db : Store) (u url : String) (r : Row)
    (hr : lookupRow db url = some r) (hj : ∃ j, r.checked_fact_json = some j) :
    lookupRow (factcheck db u).store url = some r := by
  by_cases he : u = url
  · subst he
    obtain ⟨j, hj⟩ := hj
    simp [factcheck, get_fact_check_status, hr, hj]
  · rcases factcheck_store_cases db u with h | h
    · rw [h]; exact hr
    · rw [h]
      have h1 : ¬ (u = url) := he
      simp only [set_processing_status, lookupRow, if_neg h1]
      rw [lookupRow_delete_ne db u url (fun x => he x.symm)]
      exact hr

lemma submitMany_preserves_done (urls : List String) :
    ∀ db : Store, ∀ url : String, ∀ r : Row, lookupRow db url = some r →
      (∃ j, r.checked_fact_json = some j) →
      lookupRow (submitMany db urls) url = some r := by
  induction urls with
  | nil =>
    intro db url r hr _
    simpa [submitMany] using hr
  | cons u rest ih =>
    intro db url r hr hj
    have h1 := factcheck_store_preserves_done db u url r hr hj
    simpa [submitMany] using ih _ url r h1 hj

/-- C1: submit follows the state table: a stored DONE record (non-null
payload) is returned as 200 with that payload and no store write or
dispatch; a PENDING record (null payload, processed set) answers 202 in
progress with no write or dispatch; an absent key gets a PENDING record
written, exactly one Executor run dispatched for it, and a 202 started
response. -/
theorem C1_submit_state_table (db : Store) (url : String) :
    (∀ r j, lookupRow db url = some r → r.checked_fact_json = some j →
      factcheck db url = ⟨⟨200, j⟩, db, []⟩)
  ∧ (∀ r, lookupRow db url = some r → r.checked_fact_json = none →
      r.processed = true →
      factcheck db url = ⟨⟨202, in_progress_body⟩, db, []⟩)
  ∧ (lookupRow db url = none →
      factcheck db url
          = ⟨⟨202, started_body⟩, set_processing_status db url true, [url]⟩
        ∧ lookupRow (factcheck db url).store url = some ⟨url, none, true⟩) := by
  refine ⟨?_, ?_, ?_⟩
  · intro r j hr hj
    simp [factcheck, get_fact_check_status, hr, hj]
  · intro r hr hj hp
    simp [factcheck, get_fact_check_status, hr, hj, hp]
  · intro h
    have hf : factcheck db url
        = ⟨⟨202, started_body⟩, set_processing_status db url true, [url]⟩ := by
      simp [factcheck, get_fact_check_status, h]
    exact ⟨hf, by rw [hf]; exact lookupRow_set_processing db url true⟩

/-- Witness for C1: the three branches at concrete stores. -/
theorem C1_submit_state_table_witness :
    factcheck [⟨"https://a", some (factsToJson [exFact]), true⟩] "https://a"
      = ⟨⟨200, factsToJson [exFact]⟩,
         [⟨"https://a", some (factsToJson [exFact]), true⟩], []⟩
  ∧ factcheck [⟨"https://a", none, true⟩] "https://a"
      = ⟨⟨202, in_progress_body⟩, [⟨"https://a", none, true⟩], []⟩
  ∧ (factcheck ([] : Store) "https://a"
      = ⟨⟨202, started_body⟩, set_processing_status [] "https://a" true,
         ["https://a"]⟩
     ∧ lookupRow (factcheck ([] : Store) "https://a").store "https://a"
        = some ⟨"https://a", none, true⟩) :=
  ⟨(C1_submit_state_table _ "https://a").1 _ _ rfl rfl,
   (C1_submit_state_table _ "https://a").2.1 _ rfl rfl rfl,
   (C1_submit_state_table _ "https://a").2.2 rfl⟩

/-- C2: whenever a record for the key exists, an Executor run leaves the
record DONE (non-null payload, processed set); if the fetch stage fails,
or fetch succeeds and the analyze stage fails, the saved result is the
empty list, so the key never remains PENDING. -/
theorem C2_executor_terminal (db : Store) (url : String)
    (fetch : String → Except String String)
    (analyze : String → Except String (List CheckedFact))
    (r : Row) (hr : lookupRow db url = some r) :
    (∃ j, lookupRow (process_fact_checking db url fetch analyze) url
        = some ⟨r.url, some j, true⟩)
  ∧ (∀ e, fetch url = Except.error e →
      lookupRow (process_fact_checking db url fetch analyze) url
        = some ⟨r.url, some (factsToJson []), true⟩)
  ∧ (∀ content e, fetch url = Except.ok content →
      analyze content = Except.error e →
      lookupRow (process_fact_checking db url fetch analyze) url
        = some ⟨r.url, some (factsToJson []), true⟩) := by
  refine ⟨?_, ?_, ?_⟩
  · cases hf : fetch url with
    | error e =>
      exact ⟨factsToJson [],
        by simp [process_fact_checking, hf, lookupRow_save, hr]⟩
    | ok content =>
      cases ha : analyze content with
      | error e =>
        exact ⟨factsToJson [],
          by simp [process_fact_checking, hf, ha, lookupRow_save, hr]⟩
      | ok facts =>
        exact ⟨factsToJson facts,
          by simp [process_fact_checking, hf, ha, lookupRow_save, hr]⟩
  · intro e hf
    simp [process_fact_checking, hf, lookupRow_save, hr]
  · intro content e hf ha
    simp [process_fact_checking, hf, ha, lookupRow_save, hr]

/-- Witness for C2: a pending record and a failing fetch stage end DONE
with the empty result. -/
theorem C2_executor_terminal_witness :
    (∃ j, lookupRow
        (process_fact_checking [⟨"https://a", none, true⟩] "https://a"
          (fun _ => Except.error "network down") (fun _ => Except.ok []))
        "https://a" = some ⟨"https://a", some j, true⟩)
  ∧ lookupRow
        (process_fact_checking [⟨"https://a", none, true⟩] "https://a"
          (fun _ => Except.error "network down") (fun _ => Except.ok []))
        "https://a" = some ⟨"https://a", some (factsToJson []), true⟩ :=
  ⟨(C2_executor_terminal [⟨"https://a", none, true⟩] "https://a"
      (fun _ => Except.error "network down") (fun _ => Except.ok [])
      ⟨"https://a", none, true⟩ rfl).1,
   (C2_executor_terminal [⟨"https://a", none, true⟩] "https://a"
      (fun _ => Except.error "network down") (fun _ => Except.ok [])
      ⟨"https://a", none, true⟩ rfl).2.1 "network down" rfl⟩

/-- C3 counterexample: the claim says saveResult then getStatus yields
(Some L, false), but the code's get_fact_check_status returns the
processed flag, which save_fact_check_results sets to TRUE, so at this
concrete pending record and one-fact list the returned pair is
(Some L, true), not (Some L, false). -/
theorem C3_roundtrip_counterexample :
    get_fact_check_status
        (save_fact_check_results [⟨"https://a", none, true⟩] "https://a"
          [exFact])
        "https://a"
      ≠ (some (factsToJson [exFact]), false) := by
  intro h
  have h2 : true = false := congrArg Prod.snd h
  cases h2

/-- C3 amended: for a key whose record exists, saveResult(key, L) followed
by getStatus(key) returns (Some(encoded L), true) — the payload decodes
back to exactly L, order and content preserved, and the second component
(the processed flag) is true, not false. -/
theorem C3_roundtrip_amended (db : Store) (url : String)
    (L : List CheckedFact) (r : Row) (hr : lookupRow db url = some r) :
    get_fact_check_status (save_fact_check_results db url L) url
        = (some (factsToJson L), true)
  ∧ factsOfJson (factsToJson L) = some L := by
  constructor
  · simp [get_fact_check_status, lookupRow_save, hr]
  · exact factsOfJson_factsToJson L

/-- Witness for the amended C3 at a concrete pending record. -/
theorem C3_roundtrip_amended_witness :
    get_fact_check_status
        (save_fact_check_results [⟨"https://a", none, true⟩] "https://a"
          [exFact])
        "https://a"
      = (some (factsToJson [exFact]), true)
  ∧ factsOfJson (factsToJson [exFact]) = some [exFact] :=
  C3_roundtrip_amended _ "https://a" [exFact] _ rfl

/-- C4: once a record is DONE, submit returns the stored payload with 200,
dispatches nothing (so fetch and analyze are never invoked), leaves the
store unchanged, and under any further sequence of submit calls the record
stays exactly as it is — it never regresses to PENDING. -/
theorem C4_done_is_sticky (db : Store) (url : String) (r : Row) (j : Json)
    (hr : lookupRow db url = some r) (hj : r.checked_fact_json = some j) :
    factcheck db url = ⟨⟨200, j⟩, db, []⟩
  ∧ ∀ urls, lookupRow (submitMany db urls) url = some r := by
  constructor
  · simp [factcheck, get_fact_check_status, hr, hj]
  · intro urls
    exact submitMany_preserves_done urls db url r hr ⟨j, hj⟩

/-- Witness for C4: a DONE record survives a run of submits on its own key
and another key. -/
theorem C4_done_is_sticky_witness :
    factcheck [⟨"https://a", some (factsToJson [exFact]), true⟩] "https://a"
      = ⟨⟨200, factsToJson [exFact]⟩,
         [⟨"https://a", some (factsToJson [exFact]), true⟩], []⟩
  ∧ lookupRow
      (submitMany [⟨"https://a", some (factsToJson [exFact]), true⟩]
        ["https://a", "https://b", "https://a"]) "https://a"
      = some ⟨"https://a", some (factsToJson [exFact]), true⟩ :=
  ⟨(C4_done_is_sticky [⟨"https://a", some (factsToJson [exFact]), true⟩]
      "https://a" ⟨"https://a", some (factsToJson [exFact]), true⟩
      (factsToJson [exFact]) rfl rfl).1,
   (C4_done_is_sticky [⟨"https://a", some (factsToJson [exFact]), true⟩]
      "https://a" ⟨"https://a", some (factsToJson [exFact]), true⟩
      (factsToJson [exFact]) rfl rfl).2
     ["https://a", "https://b", "https://a"]⟩

/-- C5 counterexample: saveResult on a key with no record succeeds
silently — the spec-modelled contract demands an InternalConsistencyFault
on the empty store, but the code's UPDATE matches no row, raises nothing
and returns the store unchanged, with no record created. -/
theorem C5_save_absent_counterexample :
    saveResult_contract [] "https://a" [exFact]
        = Except.error StoreFault.internalConsistencyFault
  ∧ save_fact_check_results [] "https://a" [exFact] = ([] : Store) :=
  ⟨rfl, rfl⟩

/-- C5 amended: saveResult transitions the record to DONE with the given
list only if a record already exists; called for a key with no record it
silently leaves the store unchanged and signals nothing. -/
theorem C5_save_only_updates_amended (db : Store) (url : String)
    (L : List CheckedFact) :
    (lookupRow db url = none → save_fact_check_results db url L = db)
  ∧ (∀ r, lookupRow db url = some r →
      lookupRow (save_fact_check_results db url L) url
        = some ⟨r.url, some (factsToJson L), true⟩) := by
  constructor
  · intro h
    exact save_absent db url L h
  · intro r hr
    simp [lookupRow_save, hr]

/-- Witness for the amended C5: both branches at concrete stores. -/
theorem C5_save_only_updates_amended_witness :
    save_fact_check_results [] "https://a" [exFact] = ([] : Store)
  ∧ lookupRow
      (save_fact_check_results [⟨"https://a", none, true⟩] "https://a"
        [exFact])
      "https://a"
      = some ⟨"https://a", some (factsToJson [exFact]), true⟩ :=
  ⟨(C5_save_only_updates_amended [] "https://a" [exFact]).1 rfl,
   (C5_save_only_updates_amended [⟨"https://a", none, true⟩] "https://a"
      [exFact]).2 _ rfl⟩

/-- C6: markPending — set_processing_status with True — creates or
overwrites the record for the key with a null payload and the processed
flag set, erasing any prior result whatever the prior state was, and doing
it twice leaves the same store as doing it once. -/
theorem C6_markPending_overwrite_idem (db : Store) (url : String) :
    lookupRow (set_processing_status db url true) url
        = some ⟨url, none, true⟩
  ∧ set_processing_status (set_processing_status db url true) url true
        = set_processing_status db url true := by
  constructor
  · exact lookupRow_set_processing db url true
  · simp [set_processing_status, delete_row, delete_row_idem]

lemma scheme_split_append (l X res : List Char)
    (h : scheme_split l = some res) :
    scheme_split (l ++ X) = some (res ++ X) := by
  induction l generalizing res with
  | nil => simp [scheme_split] at h
  | cons c cs ih =>
    by_cases hc : c == ':'
    · simp [scheme_split, hc] at h ⊢
      rw [← h]
    · by_cases hs : is_scheme_char c
      · simp only [List.cons_append, scheme_split, hc, hs, if_true,
          if_false, Bool.false_eq_true] at h ⊢
        exact ih res h
      · simp [scheme_split, hc, hs] at h

lemma netloc_of_append (l X : List Char) (h : l.any netloc_end = true) :
    netloc_of (l ++ X) = netloc_of l := by
  induction l with
  | nil => simp at h
  | cons c cs ih =>
    by_cases hc : netloc_end c
    · simp [netloc_of, hc]
    · have h2 : cs.any netloc_end = true := by
        simpa [List.any_cons, hc] using h
      simp [netloc_of, hc, ih h2]

lemma drop_scheme_default (clean : String) :
    drop_scheme (default_google_url clean).toList
      = '/' :: '/' :: ("www.google.com/search?q=".toList
          ++ (py_replace_space clean).toList) := by
  have h1 : (default_google_url clean).toList
      = 'h' :: ("ttps://www.google.com/search?q=".toList
          ++ (py_replace_space clean).toList) := rfl
  have h2 : scheme_split ("ttps://www.google.com/search?q=".toList
        ++ (py_replace_space clean).toList)
      = some ("//www.google.com/search?q=".toList
          ++ (py_replace_space clean).toList) :=
    scheme_split_append _ _ _ rfl
  rw [h1]
  simp only [drop_scheme]
  rw [if_neg (by decide), if_pos (by decide), h2]
  rfl

lemma urlparse_netloc_default (clean : String) :
    urlparse_netloc (default_google_url clean) = some "www.google.com" := by
  have h3 := drop_scheme_default clean
  have h5 : netloc_of (List.drop 2 ('/' :: '/'
        :: ("www.google.com/search?q=".toList
            ++ (py_replace_space clean).toList)))
      = "www.google.com".toList :=
    (netloc_of_append _ _ (by decide)).trans (by decide)
  have hc1 : starts_with_chars ('/' :: '/'
        :: ("www.google.com/search?q=".toList
            ++ (py_replace_space clean).toList)) ['/', '/'] = true := rfl
  unfold urlparse_netloc
  rw [h3, h5, if_pos hc1, if_neg (by decide)]
  rfl

lemma make_source_object_url (u : String) :
    (make_source_object u).url = u := by
  cases h : urlparse_netloc u <;> simp [make_source_object, h]

lemma added_fact_sources_cases (clean src : String) :
    (parse_source_urls src = [] →
      added_fact_sources clean src
        = [⟨default_google_url clean,
            "https://www.google.com/favicon.ico"⟩])
  ∧ (parse_source_urls src ≠ [] →
      added_fact_sources clean src
        = ((parse_source_urls src).take 3).map make_source_object)
  ∧ 1 ≤ (added_fact_sources clean src).length
  ∧ (added_fact_sources clean src).length ≤ 3 := by
  cases hp : parse_source_urls src with
  | nil =>
    refine ⟨fun _ => by simp [added_fact_sources, hp],
      fun h => absurd rfl h, ?_, ?_⟩
    · simp [added_fact_sources, hp]
    · simp [added_fact_sources, hp]
  | cons u rest =>
    have hne : ((u :: rest).take 3).map make_source_object ≠ [] := by
      simp
    refine ⟨fun h => List.noConfusion h, fun _ => ?_, ?_, ?_⟩
    · simp only [added_fact_sources, hp]
      rw [if_neg hne]
    · simp only [added_fact_sources, hp]
      rw [if_neg hne]
      simp [List.length_take]
    · simp only [added_fact_sources, hp]
      rw [if_neg hne]
      simp [List.length_take]

/-- C7: add_fact appends a fact if and only if its truthfulness is one of
the three allowed verdicts TRUE, FALSE, SOMEWHAT TRUE; any other value
returns the validation error message and leaves the collection unchanged,
so a collection whose facts all carry allowed verdicts keeps that
property. -/
theorem C7_verdict_closed (collected : List FactCheckResult)
    (ft t sm src : String) :
    ((add_fact collected ft t sm src).1 ≠ collected
        ↔ t ∈ valid_truthfulness)
  ∧ (t ∈ valid_truthfulness →
      add_fact collected ft t sm src
          = (collected ++ [added_fact ft t sm src],
             "Successfully added fact #"
                ++ toString (collected.length + 1) ++ " to collection")
        ∧ (added_fact ft t sm src).truthfulness = t)
  ∧ (t ∉ valid_truthfulness →
      add_fact collected ft t sm src
        = (collected, invalid_truthfulness_msg t))
  ∧ ((∀ f ∈ collected, f.truthfulness ∈ valid_truthfulness) →
      ∀ f ∈ (add_fact collected ft t sm src).1,
        f.truthfulness ∈ valid_truthfulness) := by
  by_cases ht : t ∈ valid_truthfulness
  · refine ⟨⟨fun _ => ht, fun _ => ?_⟩,
      fun _ => ⟨by simp [add_fact, ht], rfl⟩,
      fun h => absurd ht h, ?_⟩
    · simp only [add_fact, ht, if_true]
      intro h
      have h2 := congrArg List.length h
      simp [List.length_append] at h2
    · intro hall f hf
      simp only [add_fact, ht, if_true, List.mem_append,
        List.mem_singleton] at hf
      rcases hf with hf | hf
      · exact hall f hf
      · rw [hf]
        exact ht
  · refine ⟨⟨fun h => ?_, fun h => absurd h ht⟩,
      fun h => absurd h ht, fun _ => by simp [add_fact, ht], ?_⟩
    · exact absurd (by simp [add_fact, ht]) h
    · intro hall f hf
      simp only [add_fact, ht, if_false] at hf
      exact hall f hf

/-- Witness for C7: a rejected verdict leaves the collection untouched
with the validation message; an allowed verdict appends. -/
theorem C7_verdict_closed_witness :
    add_fact [] "f" "MAYBE" "sm" ""
        = ([], invalid_truthfulness_msg "MAYBE")
  ∧ (add_fact [] "f" "TRUE" "sm" "").1
        = [] ++ [added_fact "f" "TRUE" "sm" ""] :=
  ⟨(C7_verdict_closed [] "f" "MAYBE" "sm" "").2.2.1 (by decide),
   congrArg Prod.fst
     ((C7_verdict_closed [] "f" "TRUE" "sm" "").2.1 (by decide)).1⟩

/-- C8 counterexample: the source URL with an unbalanced bracket starts
with http, so add_fact accepts it, but urlparse raises on it (modelled as
none), and the stored favicon is the google default — the URL has no
parseable host, so the favicon is not https of its host. -/
theorem C8_favicon_counterexample :
    (add_fact [] "f" "TRUE" "sm" "http://[x").1
        = [⟨"f", "TRUE", "sm",
            [⟨"http://[x", "https://www.google.com/favicon.ico"⟩]⟩]
  ∧ urlparse_netloc "http://[x" = none := by
  constructor
  · decide
  · decide

/-- C8 amended: every source of an appended fact whose URL parses carries
the favicon https of its parsed host; when urlparse fails (unbalanced
bracket) the google default favicon is substituted.  The substituted
default search source also satisfies the host formula, its host being
www.google.com. -/
theorem C8_favicon_host_amended (collected : List FactCheckResult)
    (ft t sm src : String) (ht : t ∈ valid_truthfulness) :
    (add_fact collected ft t sm src).1
        = collected ++ [added_fact ft t sm src]
  ∧ ∀ so ∈ (added_fact ft t sm src).sources,
      (∀ h, urlparse_netloc so.url = some h →
          so.favicon = "https://" ++ h ++ "/favicon.ico")
      ∧ (urlparse_netloc so.url = none →
          so.favicon = "https://www.google.com/favicon.ico") := by
  refine ⟨by simp [add_fact, ht], ?_⟩
  intro so hso
  simp only [added_fact, added_fact_sources] at hso
  by_cases hempty :
      ((parse_source_urls src).take 3).map make_source_object = []
  · rw [if_pos hempty] at hso
    simp only [List.mem_singleton] at hso
    subst hso
    refine ⟨?_, ?_⟩
    · intro h hh
      rw [urlparse_netloc_default] at hh
      injection hh with h2
      rw [← h2]
      rfl
    · intro hn
      rw [urlparse_netloc_default] at hn
  · rw [if_neg hempty] at hso
    rcases List.mem_map.mp hso with ⟨u, hu, hmk⟩
    rw [← hmk]
    refine ⟨?_, ?_⟩
    · intro h hh
      rw [make_source_object_url] at hh
      cases hnet : urlparse_netloc u with
      | some d =>
        rw [hnet] at hh
        injection hh with h2
        rw [← h2]
        simp [make_source_object, hnet]
      | none =>
        rw [hnet] at hh
        cases hh
    · intro hn
      rw [make_source_object_url] at hn
      simp [make_source_object, hn]

/-- Witness for the amended C8 at one parsed http source. -/
theorem C8_favicon_host_amended_witness :
    (add_fact [] "f" "TRUE" "sm" "https://www.nasa.gov/climate").1
        = [] ++ [added_fact "f" "TRUE" "sm" "https://www.nasa.gov/climate"]
  ∧ ∀ so ∈ (added_fact "f" "TRUE" "sm"
        "https://www.nasa.gov/climate").sources,
      (∀ h, urlparse_netloc so.url = some h →
          so.favicon = "https://" ++ h ++ "/favicon.ico")
      ∧ (urlparse_netloc so.url = none →
          so.favicon = "https://www.google.com/favicon.ico") :=
  C8_favicon_host_amended [] "f" "TRUE" "sm" "https://www.nasa.gov/climate"
    (by decide)

/-- C9: the wrapper stages are total functions — extract_content_from_url
always returns a content string (the mock string when disabled or on
collaborator error) and analyze_facts_with_ai always returns a fact list —
so running the Executor on the wrapped stages is exactly the straight-line
save of the analyze output and its catch branch never fires; a failed or
empty real analysis yields the first three mock facts, and the analyze
output is never the empty list. -/
theorem C9_wrappers_never_fail (db : Store) (url content : String)
    (enabled : Bool)
    (extract_async : String → Except String String)
    (analyze_async : String → Except String (List FactCheckResult))
    (e : String) :
    process_fact_checking db url
        (fun u => Except.ok (extract_content_from_url enabled extract_async u))
        (fun c => Except.ok (analyze_facts_with_ai enabled analyze_async c))
      = save_fact_check_results db url
          (analyze_facts_with_ai enabled analyze_async
            (extract_content_from_url enabled extract_async url))
  ∧ extract_content_from_url true (fun _ => Except.error e) url
      = "Mock content extracted from " ++ url ++ " (error: " ++ e ++ ")"
  ∧ extract_content_from_url false extract_async url
      = "Mock content extracted from " ++ url
  ∧ analyze_facts_with_ai true (fun _ => Except.error e) content
      = get_mock_facts.take 3
  ∧ analyze_facts_with_ai true (fun _ => Except.ok []) content
      = get_mock_facts.take 3
  ∧ analyze_facts_with_ai enabled analyze_async content ≠ [] := by
  refine ⟨rfl, rfl, rfl, rfl, rfl, ?_⟩
  cases enabled with
  | false =>
    simp [analyze_facts_with_ai, get_mock_facts]
  | true =>
    cases ha : analyze_async content with
    | error e2 => simp [analyze_facts_with_ai, ha, get_mock_facts]
    | ok rs =>
      by_cases hconv : convert_fact_results_to_checked_facts rs = []
      · simp [analyze_facts_with_ai, ha, hconv, get_mock_facts]
      · simp [analyze_facts_with_ai, ha, hconv]

/-- C10: a fact appended by add_fact carries between one and three
sources: at most the first three parsed http source URLs are kept, and
when none parses a single default google search source is substituted, so
the source list is never empty. -/
theorem C10_sources_bounded (collected : List FactCheckResult)
    (ft t sm src : String) (ht : t ∈ valid_truthfulness) :
    (add_fact collected ft t sm src).1
        = collected ++ [added_fact ft t sm src]
  ∧ 1 ≤ (added_fact ft t sm src).sources.length
  ∧ (added_fact ft t sm src).sources.length ≤ 3
  ∧ (parse_source_urls src = [] →
      (added_fact ft t sm src).sources
        = [⟨default_google_url (clean_fact_text_of ft),
            "https://www.google.com/favicon.ico"⟩])
  ∧ (parse_source_urls src ≠ [] →
      (added_fact ft t sm src).sources
        = ((parse_source_urls src).take 3).map make_source_object) := by
  obtain ⟨h1, h2, h3, h4⟩ :=
    added_fact_sources_cases (clean_fact_text_of ft) src
  exact ⟨by simp [add_fact, ht], h3, h4, h1, h2⟩

/-- Witness for C10: with no source string the appended fact carries
exactly the default google source. -/
theorem C10_sources_bounded_witness :
    (add_fact [] "f" "TRUE" "sm" "").1
        = [] ++ [added_fact "f" "TRUE" "sm" ""]
  ∧ 1 ≤ (added_fact "f" "TRUE" "sm" "").sources.length
  ∧ (added_fact "f" "TRUE" "sm" "").sources.length ≤ 3
  ∧ (parse_source_urls "" = [] →
      (added_fact "f" "TRUE" "sm" "").sources
        = [⟨default_google_url (clean_fact_text_of "f"),
            "https://www.google.com/favicon.ico"⟩])
  ∧ (parse_source_urls "" ≠ [] →
      (added_fact "f" "TRUE" "sm" "").sources
        = ((parse_source_urls "").take 3).map make_source_object) :=
  C10_sources_bounded [] "f" "TRUE" "sm" "" (by decide)

end Newsfax
